import Mathlib

/-!
Verification of the analog clock-face widget (`examples/Face.py`,
`examples/Hand.py`): a shallow embedding of the geometric core
(hand-endpoint computation, tick-mark computation, hand angles,
sub-second synchronisation, validity state machine) and proofs of the
specified properties.

Angles are modelled as real numbers of degrees; Python's `math.sin` /
`math.cos` / `math.radians` become `Real.sin` / `Real.cos` and
multiplication by `π / 180`; Python's `int(...)` cast (truncation
toward zero) becomes `pyint`.  Pixel coordinates are integers.
Exact time-arithmetic (`draw_hands`, `synchronise`) is modelled over
`ℚ` and `ℤ`, which agree with the source's arithmetic on all the
values considered here.
-/

namespace ClockFace

/-- Python `math.radians d = d * (pi / 180)`. -/
noncomputable def radians (d : ℝ) : ℝ := d * (Real.pi / 180)

/-- Python `int(x)` applied to a float: truncation toward zero. -/
noncomputable def pyint (x : ℝ) : ℤ := if 0 ≤ x then ⌊x⌋ else ⌈x⌉

/-- A pixel point, as the dicts `{'x': ..., 'y': ...}` in the source. -/
structure Point where
  x : ℤ
  y : ℤ
deriving DecidableEq, Repr

/-- A line segment: a pair of points, as the two-element point lists
    (`self.main`, `self.flag`, entries of `card_points`). -/
abbrev Segment := Point × Point

/-- Euclidean distance between two pixel points (the metric the spec's
    tolerance statement is about; the source itself never computes
    distances). -/
noncomputable def distPt (p q : Point) : ℝ :=
  Real.sqrt ((((p.x - q.x : ℤ) : ℝ)) ^ 2 + (((p.y - q.y : ℤ) : ℝ)) ^ 2)

/-- The state of a `Hand` instance (`Hand.__init__` in `Hand.py`):
    the five radii, the pivot (`spindle`) and the derived `main` and
    `flag` segments. -/
structure Hand where
  main_tail_rad : ℤ
  spindle_rad : ℤ
  flag_rad : ℤ
  flag_end_rad : ℤ
  main_rad : ℤ
  spindle : Point
  main : Segment
  flag : Segment
deriving DecidableEq

/-- `Hand.__init__(x, y, main_tail_rad, spindle_rad, flag_rad,
    flag_end_rad, main_rad)`: `main` and `flag` start as zero points. -/
def Hand.init (x y main_tail_rad spindle_rad flag_rad flag_end_rad main_rad : ℤ) : Hand :=
  { main_tail_rad := main_tail_rad
    spindle_rad := spindle_rad
    flag_rad := flag_rad
    flag_end_rad := flag_end_rad
    main_rad := main_rad
    spindle := ⟨x, y⟩
    main := (⟨0, 0⟩, ⟨0, 0⟩)
    flag := (⟨0, 0⟩, ⟨0, 0⟩) }

/-- `Hand.rotate(self, by)` from `Hand.py`: recompute `main` (tail and
    tip) from the spindle, and `flag` only when `flag_rad != 0`. -/
noncomputable def Hand.rotate (h : Hand) (a : ℝ) : Hand :=
  let s := Real.sin (radians a)
  let c := Real.cos (radians a)
  { h with
    main := (⟨h.spindle.x - pyint (s * (h.main_tail_rad : ℝ)),
              h.spindle.y - pyint (c * (h.main_tail_rad : ℝ))⟩,
             ⟨h.spindle.x + pyint (s * (h.main_rad : ℝ)),
              h.spindle.y + pyint (c * (h.main_rad : ℝ))⟩)
    flag := if h.flag_rad ≠ 0 then
              (⟨h.spindle.x + pyint (s * (h.flag_rad : ℝ)),
                h.spindle.y + pyint (c * (h.flag_rad : ℝ))⟩,
               ⟨h.spindle.x + pyint (s * (h.flag_end_rad : ℝ)),
                h.spindle.y + pyint (c * (h.flag_end_rad : ℝ))⟩)
            else h.flag }

/-- `Hand.set_coords(self, x, y)` from `Hand.py`: replaces the spindle
    and nothing else. -/
def Hand.set_coords (h : Hand) (x y : ℤ) : Hand :=
  { h with spindle := ⟨x, y⟩ }

/-- `Hand.draw(self, obj, draw_ctx, rotate_by)` from `Hand.py`, with
    the drawing context abstracted to the list of emitted
    `(line width, segment)` pairs: rotate first, always draw `main`
    at width 4, and draw `flag` at width 12 only when `flag_rad != 0`.
    Returns the rotated hand together with the emitted lines. -/
noncomputable def Hand.draw (h : Hand) (rotate_by : ℝ) : Hand × List (ℤ × Segment) :=
  let h' := h.rotate rotate_by
  (h', (4, h'.main) :: (if h'.flag_rad ≠ 0 then [(12, h'.flag)] else []))

/-! ## Face geometry: tick marks (`FaceClass.set_coords`) -/

/-- One tick segment of `FaceClass.set_coords`: from radius `r` to
    radius `r - l` along the ray at `rot` degrees from the centre
    `(x, y)`.  This is the entry appended to `card_points` /
    `sub_card_points` in `Face.py`. -/
noncomputable def tickSegment (x y : ℤ) (rot : ℤ) (r l : ℤ) : Segment :=
  (⟨x + pyint (Real.sin (radians (rot : ℝ)) * (r : ℝ)),
    y + pyint (Real.cos (radians (rot : ℝ)) * (r : ℝ))⟩,
   ⟨x + pyint (Real.sin (radians (rot : ℝ)) * ((r - l : ℤ) : ℝ)),
    y + pyint (Real.cos (radians (rot : ℝ)) * ((r - l : ℤ) : ℝ))⟩)

/-- `FaceClass.CARDINALS`. -/
def CARDINALS : ℕ := 4

/-- `FaceClass.HOURS`. -/
def HOURS : ℕ := 12

/-- The cardinal-tick loop of `FaceClass.set_coords`: `rotation`
    starts at 0, a segment is appended, then `rotation += 90`,
    for `i in range(CARDINALS)`. -/
noncomputable def cardPoints (x y : ℤ) (cardinal_rad cardinal_len : ℤ) : List Segment :=
  ((List.range CARDINALS).foldl
    (fun (st : ℤ × List Segment) _ =>
      (st.1 + 90, st.2 ++ [tickSegment x y st.1 cardinal_rad cardinal_len]))
    (0, [])).2

/-- The sub-cardinal-tick loop of `FaceClass.set_coords`: for
    `i in range(HOURS)`, first `rotation += 30`, then `continue` when
    `i % 3 == 2`, else append a segment at the current rotation. -/
noncomputable def subCardPoints (x y : ℤ) (sub_card_rad sub_card_len : ℤ) : List Segment :=
  ((List.range HOURS).foldl
    (fun (st : ℤ × List Segment) i =>
      let rot := st.1 + 30
      (rot, if i % 3 = 2 then st.2
            else st.2 ++ [tickSegment x y rot sub_card_rad sub_card_len]))
    (0, [])).2

/-! ## Face time model: hand angles (`FaceClass.draw_hands`) -/

/-- The angle computation of `FaceClass.draw_hands` and the rotations
    it passes to `Hand.draw`.  `hour`, `minute`, `second` are
    `localtime[3..5]`; `fractionaltime` is the millisecond accumulator.
    Returns `((sec_rot, min_rot, hr_rot), (hour-hand rotation,
    minute-hand rotation, second-hand rotation))`, the latter exactly
    the third arguments of the three `draw` calls. -/
def draw_hands (hour minute second : ℕ) (fractionaltime : ℤ) :
    (ℚ × ℚ × ℚ) × (ℚ × ℚ × ℚ) :=
  let sec_rot : ℚ := (second : ℚ) * 6 + 6 * ((fractionaltime : ℚ) / 1000)
  let min_rot : ℚ := (minute : ℚ) * 6 + sec_rot / 60
  let hr_rot : ℚ := (((hour * 30) % 360 : ℕ) : ℚ) + min_rot / 12
  ((sec_rot, min_rot, hr_rot), (360 - hr_rot, 360 - min_rot, 360 - sec_rot))

/-! ## Face time model: sub-second accumulator (`FaceClass.synchronise`) -/

/-- The part of the `FaceClass` state read and written by
    `synchronise`: `localtime[5]` (the last observed second),
    `fractionaltime` and `lastsync`.  Tick values are modelled as
    integers; `time.ticks_diff` / `time.ticks_add` become integer
    subtraction / addition (no counter wraparound in the model). -/
structure SyncState where
  second : ℕ
  fractionaltime : ℤ
  lastsync : ℤ
deriving DecidableEq

/-- `FaceClass.synchronise`, with the external reads
    `time.localtime()[5]` and `time.ticks_ms()` passed in as
    `newSecond` and `fraction`: if the newly read second differs from
    the stored one, reset `fractionaltime` to zero
    (`FRACTIONALTIMEZERO = ticks_diff(lastsync, lastsync) = 0`),
    otherwise add the delta since `lastsync`. -/
def synchronise (st : SyncState) (newSecond : ℕ) (fraction : ℤ) : SyncState :=
  let lastsec := st.second
  { second := newSecond
    fractionaltime :=
      if lastsec ≠ newSecond then 0
      else st.fractionaltime + (fraction - st.lastsync)
    lastsync := fraction }

/-! ## Event dispatch and the validity flag (`FaceClass.event_cb`,
`FaceClass.calc`, `FaceClass.draw`, `FaceClass.constructor`) -/

/-- The LVGL event codes that `FaceClass.event_cb` distinguishes. -/
inductive Event where
  | DRAW_MAIN
  | DRAW_POST
  | STYLE_CHANGED
  | VALUE_CHANGED
  | PRESSING
  | RELEASED
  | LAYOUT_CHANGED
  | REFRESH
deriving DecidableEq, Repr, Fintype

/-- The draw routines `event_cb` can invoke. -/
inductive DrawRoutine where
  | drawBody
  | drawHands
deriving DecidableEq, Repr

/-- `obj.valid` right after `FaceClass.constructor`. -/
def constructorValid : Bool := false

/-- The effect of `FaceClass.draw` on `obj.valid`, together with
    whether it recomputed: `if not obj.valid: self.calc(obj)`, and
    `calc` ends with `obj.valid = True`.  Returns
    `(recomputed, new valid)`. -/
def draw_step (valid : Bool) : Bool × Bool :=
  if ¬ valid then (true, true) else (false, valid)

/-- `FaceClass.event_cb` (after the successful `event_base` call),
    abstracted to its effect on `obj.valid` and the sequence of draw
    routines it invokes.  The body is two successive dispatch chains:
    the first is `if DRAW_MAIN: draw / elif DRAW_POST: draw_hands`;
    the second is `if DRAW_MAIN: draw / elif code in [STYLE_CHANGED,
    VALUE_CHANGED, PRESSING, RELEASED, LAYOUT_CHANGED]: valid = False
    / elif REFRESH: obj.invalidate()` (which requests a redraw and
    does not touch `valid`). -/
def event_cb (valid : Bool) (code : Event) : Bool × List DrawRoutine :=
  let first : Bool × List DrawRoutine :=
    if code = Event.DRAW_MAIN then
      ((draw_step valid).2, [DrawRoutine.drawBody])
    else if code = Event.DRAW_POST then
      (valid, [DrawRoutine.drawHands])
    else (valid, [])
  if code = Event.DRAW_MAIN then
    ((draw_step first.1).2, first.2 ++ [DrawRoutine.drawBody])
  else if code = Event.STYLE_CHANGED ∨ code = Event.VALUE_CHANGED ∨
          code = Event.PRESSING ∨ code = Event.RELEASED ∨
          code = Event.LAYOUT_CHANGED then
    (false, first.2)
  else (first.1, first.2)

/-- The segments emitted by one call of `FaceClass.draw` (the face
    body): every segment of `sub_card_points`, and the segments of
    `card_points` only when `card_font` is `None`. -/
def drawBodySegments (sub_card_points card_points : List Segment)
    (card_font_none : Bool) : List Segment :=
  sub_card_points ++ (if card_font_none then card_points else [])

/-- The face-body segments emitted while `event_cb` handles one event:
    each invocation of the body draw routine emits
    `drawBodySegments`. -/
def eventBodySegments (valid : Bool) (code : Event)
    (sub_card_points card_points : List Segment) (card_font_none : Bool) :
    List Segment :=
  (event_cb valid code).2.flatMap
    (fun r => match r with
      | DrawRoutine.drawBody =>
          drawBodySegments sub_card_points card_points card_font_none
      | DrawRoutine.drawHands => [])

/-! ## Properties as the spec words them (for refinement checks) -/

/-- The spec's wording of the main-segment computation: BOTH endpoints
    (tail with `main_tail_rad`, tip with `main_rad`) obtained by
    ADDING the truncated offsets `sin(angle)·radius`,
    `cos(angle)·radius` to the pivot. -/
noncomputable def mainSegmentAddedSpec (h : Hand) (a : ℝ) : Prop :=
  (h.rotate a).main =
    (⟨h.spindle.x + pyint (Real.sin (radians a) * (h.main_tail_rad : ℝ)),
      h.spindle.y + pyint (Real.cos (radians a) * (h.main_tail_rad : ℝ))⟩,
     ⟨h.spindle.x + pyint (Real.sin (radians a) * (h.main_rad : ℝ)),
      h.spindle.y + pyint (Real.cos (radians a) * (h.main_rad : ℝ))⟩)

/-- The spec's wording of the pivot-change effect: after changing only
    the pivot via `set_coords` (no intervening rotation), the stored
    segments of a hand that last rotated to angle `a` equal the
    segments computed at angle `a` from the new pivot. -/
noncomputable def pivotReflectedSpec (h : Hand) (a : ℝ) (x y : ℤ) : Prop :=
  ((h.rotate a).set_coords x y).main = ((h.set_coords x y).rotate a).main
  ∧ ((h.rotate a).set_coords x y).flag = ((h.set_coords x y).rotate a).flag

/-- The spec's wording of the tip-distance property: the main tip lies
    at Euclidean distance `main_rad` from the pivot within a ONE-pixel
    rounding tolerance. -/
noncomputable def tipWithinOnePx (h : Hand) (a : ℝ) : Prop :=
  |distPt (h.rotate a).main.2 h.spindle - (h.main_rad : ℝ)| ≤ 1

/-! ## Evaluation lemmas for `pyint` and `radians` -/

theorem pyint_intCast (n : ℤ) : pyint (n : ℝ) = n := by
  unfold pyint
  split <;> simp

theorem pyint_zero : pyint 0 = 0 := by
  simpa using pyint_intCast 0

theorem abs_pyint_sub_le (x : ℝ) : |(pyint x : ℝ) - x| ≤ 1 := by
  unfold pyint
  split
  · rw [abs_le]
    constructor
    · linarith [Int.sub_one_lt_floor x]
    · linarith [Int.floor_le x]
  · rw [abs_le]
    constructor
    · linarith [Int.le_ceil x]
    · linarith [Int.ceil_lt_add_one x]

theorem radians_zero : radians 0 = 0 := by
  simp [radians]

theorem radians_ninety : radians 90 = Real.pi / 2 := by
  unfold radians; ring

theorem radians_forty_five : radians 45 = Real.pi / 4 := by
  unfold radians; ring

theorem sin_radians_zero : Real.sin (radians 0) = 0 := by
  rw [radians_zero, Real.sin_zero]

theorem cos_radians_zero : Real.cos (radians 0) = 1 := by
  rw [radians_zero, Real.cos_zero]

theorem sin_radians_ninety : Real.sin (radians 90) = 1 := by
  rw [radians_ninety, Real.sin_pi_div_two]

theorem cos_radians_ninety : Real.cos (radians 90) = 0 := by
  rw [radians_ninety, Real.cos_pi_div_two]

theorem sin_radians_forty_five : Real.sin (radians 45) = Real.sqrt 2 / 2 := by
  rw [radians_forty_five, Real.sin_pi_div_four]

theorem cos_radians_forty_five : Real.cos (radians 45) = Real.sqrt 2 / 2 := by
  rw [radians_forty_five, Real.cos_pi_div_four]

theorem pyint_sixty_sqrt_two : pyint (Real.sqrt 2 / 2 * 120) = 84 := by
  have hs := Real.sq_sqrt (by norm_num : (0:ℝ) ≤ 2)
  have hnn := Real.sqrt_nonneg 2
  have heq : Real.sqrt 2 / 2 * 120 = 60 * Real.sqrt 2 := by ring
  rw [pyint, if_pos (by rw [heq]; positivity), heq, Int.floor_eq_iff]
  constructor
  · push_cast
    nlinarith
  · push_cast
    nlinarith

/-! ## Distance helper lemmas -/

theorem sqrt_sq_add_sq_eq_abs (a b : ℝ) :
    Real.sqrt (a ^ 2 + b ^ 2) = Complex.abs ⟨a, b⟩ := by
  rw [Complex.abs_apply, Complex.normSq_mk]
  ring_nf

/-- Truncating the two coordinates of a point at distance `r` from the
    origin moves it radially by at most `√2`. -/
theorem dist_tip_close (s c r : ℝ) (hr : 0 ≤ r) (hsc : s ^ 2 + c ^ 2 = 1) :
    |Real.sqrt (((pyint (s * r) : ℝ)) ^ 2 + ((pyint (c * r) : ℝ)) ^ 2) - r|
      ≤ Real.sqrt 2 := by
  set px : ℝ := (pyint (s * r) : ℝ) with hpx
  set py : ℝ := (pyint (c * r) : ℝ) with hpy
  have h1 : Real.sqrt (px ^ 2 + py ^ 2) = Complex.abs ⟨px, py⟩ :=
    sqrt_sq_add_sq_eq_abs px py
  have hwr : Complex.abs ⟨s * r, c * r⟩ = r := by
    rw [← sqrt_sq_add_sq_eq_abs]
    have h : (s * r) ^ 2 + (c * r) ^ 2 = r ^ 2 := by nlinarith [hsc]
    rw [h, Real.sqrt_sq hr]
  have htr : |Complex.abs ⟨px, py⟩ - Complex.abs ⟨s * r, c * r⟩|
      ≤ Complex.abs (⟨px, py⟩ - ⟨s * r, c * r⟩) :=
    Complex.abs.abs_abv_sub_le_abv_sub _ _
  have hsub : (⟨px, py⟩ - ⟨s * r, c * r⟩ : ℂ) = ⟨px - s * r, py - c * r⟩ := by
    apply Complex.ext <;> simp
  have hx1 : |px - s * r| ≤ 1 := abs_pyint_sub_le (s * r)
  have hy1 : |py - c * r| ≤ 1 := abs_pyint_sub_le (c * r)
  have herr : Complex.abs ⟨px - s * r, py - c * r⟩ ≤ Real.sqrt 2 := by
    rw [← sqrt_sq_add_sq_eq_abs]
    refine Real.sqrt_le_sqrt ?_
    have hx2 := (sq_le_one_iff_abs_le_one (px - s * r)).mpr hx1
    have hy2 := (sq_le_one_iff_abs_le_one (py - c * r)).mpr hy1
    linarith
  rw [h1, ← hwr]
  exact le_trans htr (by rw [hsub]; exact herr)

end ClockFace

namespace ClockFace

/-- C1 (counterexample): the claim as written — both main-segment
    endpoints obtained by ADDING the truncated offsets to the pivot —
    fails on the default hand at angle 90°, where the tail endpoint is
    `(-10, 0)` (offsets subtracted), not `(10, 0)`. -/
theorem c1_main_tail_added_counterexample :
    ¬ mainSegmentAddedSpec (Hand.init 0 0 10 5 0 0 120) 90 := by
  unfold mainSegmentAddedSpec
  intro heq
  have h1 : ((Hand.init 0 0 10 5 0 0 120).rotate 90).main.1.x = -10 := by
    simp [Hand.rotate, Hand.init, sin_radians_ninety, cos_radians_ninety]
    norm_num [pyint]
  rw [heq] at h1
  simp [Hand.init, sin_radians_ninety, cos_radians_ninety] at h1
  norm_num [pyint] at h1

/-- C1 (amended): for every pivot, angle and hand spec, both endpoints
    of the main segment are computed by converting the angle to
    radians and truncating the offsets `sin(angle)·radius`,
    `cos(angle)·radius` to integer pixels; the tip endpoint (radius
    `main_rad`) ADDS them to the pivot while the tail endpoint (radius
    `main_tail_rad`) SUBTRACTS them from the pivot. -/
theorem c1_main_segment_endpoints (h : Hand) (a : ℝ) :
    (h.rotate a).main =
      (⟨h.spindle.x - pyint (Real.sin (radians a) * (h.main_tail_rad : ℝ)),
        h.spindle.y - pyint (Real.cos (radians a) * (h.main_tail_rad : ℝ))⟩,
       ⟨h.spindle.x + pyint (Real.sin (radians a) * (h.main_rad : ℝ)),
        h.spindle.y + pyint (Real.cos (radians a) * (h.main_rad : ℝ))⟩) := rfl

/-- C2: the tick-mark computation produces exactly 4 cardinal segments
    at angles 0°, 90°, 180°, 270°, each from radius `cardinal_rad` to
    `cardinal_rad - cardinal_len` along its ray, and exactly 8
    sub-cardinal segments at angles 30°, 60°, 120°, 150°, 210°, 240°,
    300°, 330° (every third of the twelve 30°-increment positions
    skipped), each from `sub_card_rad` to
    `sub_card_rad - sub_card_len`. -/
theorem c2_tick_marks (x y cardinal_rad cardinal_len sub_card_rad sub_card_len : ℤ) :
    cardPoints x y cardinal_rad cardinal_len =
      [tickSegment x y 0 cardinal_rad cardinal_len,
       tickSegment x y 90 cardinal_rad cardinal_len,
       tickSegment x y 180 cardinal_rad cardinal_len,
       tickSegment x y 270 cardinal_rad cardinal_len]
    ∧ subCardPoints x y sub_card_rad sub_card_len =
      [tickSegment x y 30 sub_card_rad sub_card_len,
       tickSegment x y 60 sub_card_rad sub_card_len,
       tickSegment x y 120 sub_card_rad sub_card_len,
       tickSegment x y 150 sub_card_rad sub_card_len,
       tickSegment x y 210 sub_card_rad sub_card_len,
       tickSegment x y 240 sub_card_rad sub_card_len,
       tickSegment x y 300 sub_card_rad sub_card_len,
       tickSegment x y 330 sub_card_rad sub_card_len] := by
  constructor
  · simp [cardPoints, CARDINALS, List.range_succ]
  · simp [subCardPoints, HOURS, List.range_succ]

/-- C3: the hand angles satisfy
    `secondDeg = second*6 + 6*(fractionalMillis/1000)`,
    `minuteDeg = minute*6 + secondDeg/60`,
    `hourDeg = (hour*30) % 360 + minuteDeg/12`, and the sample
    `hour=3, minute=0, second=0, fractionalMillis=0` yields
    `secondDeg=0, minuteDeg=0, hourDeg=90`. -/
theorem c3_hand_angle_formulas (hour minute second : ℕ) (f : ℤ) :
    ((draw_hands hour minute second f).1.1 =
        (second : ℚ) * 6 + 6 * ((f : ℚ) / 1000)
      ∧ (draw_hands hour minute second f).1.2.1 =
        (minute : ℚ) * 6 + (draw_hands hour minute second f).1.1 / 60
      ∧ (draw_hands hour minute second f).1.2.2 =
        (((hour * 30) % 360 : ℕ) : ℚ) + (draw_hands hour minute second f).1.2.1 / 12)
    ∧ (draw_hands 3 0 0 0).1 = (0, 0, 90) := by
  refine ⟨⟨rfl, rfl, rfl⟩, ?_⟩
  simp [draw_hands]

/-- C4: `synchronise` resets the accumulator to 0 exactly when the
    newly read second differs from the stored one and otherwise adds
    the elapsed delta; from second 5 with 800 ms accumulated, a sample
    at second 5 after 200 ms gives `secondDeg = 36`, and a sample at
    second 6 (accumulator reset) also gives `secondDeg = 36`. -/
theorem c4_synchronise_accumulator (st : SyncState) (newSecond : ℕ) (fraction : ℤ) :
    ((synchronise st newSecond fraction).fractionaltime =
        (if st.second ≠ newSecond then 0
         else st.fractionaltime + (fraction - st.lastsync))
      ∧ (synchronise st newSecond fraction).second = newSecond
      ∧ (synchronise st newSecond fraction).lastsync = fraction)
    ∧ (synchronise ⟨5, 800, 0⟩ 5 200).fractionaltime = 1000
    ∧ (draw_hands 0 0 5 1000).1.1 = 36
    ∧ (synchronise ⟨5, 800, 0⟩ 6 200).fractionaltime = 0
    ∧ (draw_hands 0 0 6 0).1.1 = 36 := by
  refine ⟨⟨rfl, rfl, rfl⟩, ?_, ?_, ?_, ?_⟩
  · simp [synchronise]
  · simp [draw_hands]
    norm_num
  · simp [synchronise]
  · simp [draw_hands]
    norm_num

/-- C5: the rotation passed to each hand's drawing primitive is 360
    minus that hand's computed clockwise-from-12 angle (hour, minute,
    second respectively). -/
theorem c5_rotation_inversion (hour minute second : ℕ) (f : ℤ) :
    (draw_hands hour minute second f).2 =
      (360 - (draw_hands hour minute second f).1.2.2,
       360 - (draw_hands hour minute second f).1.2.1,
       360 - (draw_hands hour minute second f).1.1) := rfl

end ClockFace

namespace ClockFace

/-- C6: rotating a hand computes a flag segment iff `flag_rad ≠ 0`:
    with `flag_rad = 0` the flag is untouched and not drawn; with
    `flag_rad ≠ 0` the flag's endpoints use `flag_rad` and
    `flag_end_rad` and the flag is drawn (width 12) after the main
    segment. -/
theorem c6_flag_iff_flag_rad (h : Hand) (a : ℝ) :
    (h.flag_rad = 0 →
      (h.rotate a).flag = h.flag
      ∧ (h.draw a).2 = [(4, (h.rotate a).main)])
    ∧ (h.flag_rad ≠ 0 →
      (h.rotate a).flag =
        (⟨h.spindle.x + pyint (Real.sin (radians a) * (h.flag_rad : ℝ)),
          h.spindle.y + pyint (Real.cos (radians a) * (h.flag_rad : ℝ))⟩,
         ⟨h.spindle.x + pyint (Real.sin (radians a) * (h.flag_end_rad : ℝ)),
          h.spindle.y + pyint (Real.cos (radians a) * (h.flag_end_rad : ℝ))⟩)
      ∧ (h.draw a).2 = [(4, (h.rotate a).main), (12, (h.rotate a).flag)]) := by
  constructor
  · intro hf
    constructor
    · simp [Hand.rotate, hf]
    · simp [Hand.draw, Hand.rotate, hf]
  · intro hf
    constructor
    · simp [Hand.rotate, hf]
    · simp [Hand.draw, Hand.rotate, hf]

/-- C6 witness: the hour-hand spec (`flag_rad = 25`, `flag_end_rad =
    90`) at angle 0 gets the flag segment `((0,25),(0,90))`; the
    second-hand spec (`flag_rad = 0`) keeps its initial zero flag. -/
theorem c6_flag_witness :
    ((Hand.init 0 0 15 5 25 90 90).rotate 0).flag = (⟨0, 25⟩, ⟨0, 90⟩)
    ∧ ((Hand.init 0 0 15 5 0 0 155).rotate 0).flag = (⟨0, 0⟩, ⟨0, 0⟩) := by
  constructor
  · have h2 := (c6_flag_iff_flag_rad (Hand.init 0 0 15 5 25 90 90) 0).2
      (by norm_num [Hand.init])
    rw [h2.1]
    simp [Hand.init, sin_radians_zero, cos_radians_zero, pyint_zero]
    norm_num [pyint]
  · have h1 := (c6_flag_iff_flag_rad (Hand.init 0 0 15 5 0 0 155) 0).1
      (by norm_num [Hand.init])
    rw [h1.1]
    rfl

/-- C7: the validity flag is a two-state machine: false at
    construction; false after any style-changed, value-changed,
    pressing, released or layout-changed event; every draw leaves it
    true and recomputes exactly when it was false; and an event leaves
    the flag true only if it was already true or the event was a main
    draw. -/
theorem c7_validity_state_machine :
    constructorValid = false
    ∧ (∀ (v : Bool) (e : Event),
        (e = Event.STYLE_CHANGED ∨ e = Event.VALUE_CHANGED ∨
         e = Event.PRESSING ∨ e = Event.RELEASED ∨
         e = Event.LAYOUT_CHANGED) →
        (event_cb v e).1 = false)
    ∧ (∀ v : Bool, (event_cb v Event.DRAW_MAIN).1 = true)
    ∧ (∀ v : Bool, (draw_step v).2 = true ∧ ((draw_step v).1 = true ↔ v = false))
    ∧ (∀ (v : Bool) (e : Event),
        (event_cb v e).1 = true → v = true ∨ e = Event.DRAW_MAIN) := by
  refine ⟨rfl, ?_, ?_, ?_, ?_⟩ <;> decide

/-- C7 witness: a style-changed event on a valid face invalidates it,
    and a main-draw event on an invalid face validates it. -/
theorem c7_validity_witness :
    (event_cb true Event.STYLE_CHANGED).1 = false
    ∧ (event_cb false Event.DRAW_MAIN).1 = true :=
  ⟨c7_validity_state_machine.2.1 true Event.STYLE_CHANGED (Or.inl rfl),
   c7_validity_state_machine.2.2.1 false⟩

/-- C8 (counterexample): the claim — after changing only the pivot via
    `set_coords` the stored endpoints reflect the new pivot — fails on
    the default hand rotated to 90° and then moved to `(50, 50)`: the
    stored main segment stays `((-10,0),(120,0))` instead of the
    pivot-relative `((40,50),(170,50))`. -/
theorem c8_set_coords_counterexample :
    ¬ pivotReflectedSpec (Hand.init 0 0 10 5 0 0 120) 90 50 50 := by
  intro hspec
  have hl : (((Hand.init 0 0 10 5 0 0 120).rotate 90).set_coords 50 50).main.2.x
      = 120 := by
    simp [Hand.set_coords, Hand.rotate, Hand.init, sin_radians_ninety,
          cos_radians_ninety]
    norm_num [pyint]
  have hr : (((Hand.init 0 0 10 5 0 0 120).set_coords 50 50).rotate 90).main.2.x
      = 170 := by
    simp [Hand.set_coords, Hand.rotate, Hand.init, sin_radians_ninety,
          cos_radians_ninety]
    norm_num [pyint]
  rw [hspec.1] at hl
  rw [hl] at hr
  norm_num at hr

/-- C8 (amended): `set_coords` changes only the pivot and leaves the
    stored main and flag segments unchanged (stale); the derived
    segments are recomputed only by `rotate`, at which point they
    reflect the new pivot position. -/
theorem c8_set_coords_stale (h : Hand) (x y : ℤ) (a : ℝ) :
    (h.set_coords x y).main = h.main
    ∧ (h.set_coords x y).flag = h.flag
    ∧ (h.set_coords x y).spindle = ⟨x, y⟩
    ∧ ((h.set_coords x y).rotate a).main =
      (⟨x - pyint (Real.sin (radians a) * (h.main_tail_rad : ℝ)),
        y - pyint (Real.cos (radians a) * (h.main_tail_rad : ℝ))⟩,
       ⟨x + pyint (Real.sin (radians a) * (h.main_rad : ℝ)),
        y + pyint (Real.cos (radians a) * (h.main_rad : ℝ))⟩) :=
  ⟨rfl, rfl, rfl, rfl⟩

end ClockFace

namespace ClockFace

/-- C9 (counterexample): the one-pixel tolerance fails: the default
    hand (`main_rad = 120`) at angle 45° has its main tip at
    `(84, 84)`, whose distance from the pivot `(0,0)` is
    `√14112 ≈ 118.79`, more than one pixel short of 120. -/
theorem c9_one_px_counterexample :
    ¬ tipWithinOnePx (Hand.init 0 0 10 5 0 0 120) 45 := by
  unfold tipWithinOnePx
  have htip : ((Hand.init 0 0 10 5 0 0 120).rotate 45).main.2 = ⟨84, 84⟩ := by
    simp [Hand.rotate, Hand.init, sin_radians_forty_five, cos_radians_forty_five]
    norm_num [pyint_sixty_sqrt_two]
  rw [htip]
  have hd : distPt (⟨84, 84⟩ : Point) (Hand.init 0 0 10 5 0 0 120).spindle
      = Real.sqrt 14112 := by
    norm_num [distPt, Hand.init]
  rw [hd]
  have hlt : Real.sqrt 14112 < 119 := by
    rw [show (119:ℝ) = Real.sqrt (119 ^ 2) by rw [Real.sqrt_sq]; norm_num]
    exact Real.sqrt_lt_sqrt (by norm_num) (by norm_num)
  intro hle
  rw [abs_sub_comm, abs_of_pos (by simp [Hand.init]; linarith)] at hle
  simp [Hand.init] at hle
  linarith

/-- C9 (amended): for every pivot, angle and hand spec with
    `main_rad ≥ 0`, the main tip lies at Euclidean distance `main_rad`
    from the pivot within a `√2`-pixel rounding tolerance (each of the
    two coordinates is truncated by less than one pixel, so the radial
    error is at most `√2`, and it does exceed 1 pixel at some angles);
    the tip's exact pre-truncation offset from the pivot is
    `(sin θ · main_rad, cos θ · main_rad)`, i.e. bearing θ clockwise
    from "up". -/
theorem c9_tip_distance (h : Hand) (a : ℝ) (hr : 0 ≤ h.main_rad) :
    |distPt (h.rotate a).main.2 h.spindle - (h.main_rad : ℝ)| ≤ Real.sqrt 2
    ∧ (h.rotate a).main.2 =
      ⟨h.spindle.x + pyint (Real.sin (radians a) * (h.main_rad : ℝ)),
       h.spindle.y + pyint (Real.cos (radians a) * (h.main_rad : ℝ))⟩ := by
  refine ⟨?_, rfl⟩
  have htip : (h.rotate a).main.2 =
      ⟨h.spindle.x + pyint (Real.sin (radians a) * (h.main_rad : ℝ)),
       h.spindle.y + pyint (Real.cos (radians a) * (h.main_rad : ℝ))⟩ := rfl
  rw [htip]
  have hd : distPt
      (⟨h.spindle.x + pyint (Real.sin (radians a) * (h.main_rad : ℝ)),
        h.spindle.y + pyint (Real.cos (radians a) * (h.main_rad : ℝ))⟩ : Point)
      h.spindle
      = Real.sqrt
        (((pyint (Real.sin (radians a) * (h.main_rad : ℝ)) : ℝ)) ^ 2 +
         ((pyint (Real.cos (radians a) * (h.main_rad : ℝ)) : ℝ)) ^ 2) := by
    unfold distPt
    norm_num
  rw [hd]
  exact dist_tip_close (Real.sin (radians a)) (Real.cos (radians a))
    (h.main_rad : ℝ) (by exact_mod_cast hr) (Real.sin_sq_add_cos_sq _)

/-- C9 witness: the default hand at angle 45° from pivot `(0,0)`:
    `main_rad = 120 ≥ 0` and the tip distance is within `√2` of 120. -/
theorem c9_tip_distance_witness :
    0 ≤ (Hand.init 0 0 10 5 0 0 120).main_rad
    ∧ |distPt ((Hand.init 0 0 10 5 0 0 120).rotate 45).main.2
          (Hand.init 0 0 10 5 0 0 120).spindle
        - ((Hand.init 0 0 10 5 0 0 120).main_rad : ℝ)| ≤ Real.sqrt 2 :=
  ⟨by norm_num [Hand.init],
   (c9_tip_distance (Hand.init 0 0 10 5 0 0 120) 45 (by norm_num [Hand.init])).1⟩

/-- C10: a DRAW_MAIN event makes `event_cb` invoke the face-body draw
    routine exactly twice (two separate dispatch branches match it),
    so the emitted body segments are the body sequence twice over and
    every tick-mark segment is emitted twice per main-draw event. -/
theorem c10_draw_main_twice (v : Bool) (sub_card_points card_points : List Segment)
    (card_font_none : Bool) :
    (event_cb v Event.DRAW_MAIN).2.count DrawRoutine.drawBody = 2
    ∧ eventBodySegments v Event.DRAW_MAIN sub_card_points card_points card_font_none
      = drawBodySegments sub_card_points card_points card_font_none
        ++ drawBodySegments sub_card_points card_points card_font_none
    ∧ ∀ seg : Segment,
        (eventBodySegments v Event.DRAW_MAIN sub_card_points card_points
          card_font_none).count seg
        = 2 * (drawBodySegments sub_card_points card_points card_font_none).count seg := by
  have hcb : (event_cb v Event.DRAW_MAIN).2
      = [DrawRoutine.drawBody, DrawRoutine.drawBody] := by
    simp [event_cb]
  refine ⟨?_, ?_, ?_⟩
  · rw [hcb]; rfl
  · unfold eventBodySegments
    rw [hcb]
    simp
  · intro seg
    unfold eventBodySegments
    rw [hcb]
    simp [List.count_append, two_mul]

end ClockFace
